import Mathlib

/-!
Shallow embedding of the process supervisor in `src/server/q-cli.js`
(the `spawnQ` and `abortQSession` functions) of the q-dev-cli-ui
repository, together with theorems settling the frozen claims about it.

Modelling conventions:
* JavaScript strings are Lean `String`s; a possibly-`undefined` string
  value is `Option String`; JS string truthiness (`undefined`, `null`
  and `""` are falsy) is made explicit via `jsTruthy` / `jsOr`.
* The child-process notification model: a run delivers a list of
  stdout/stderr chunks followed by its terminal notifications.  A
  launched process delivers exactly one `close` event carrying its
  exit code (`Option Int`, because Node reports `null` when the child
  was killed by a signal).  A process that fails to launch delivers
  the `error` event and then Node still emits `close` — carrying the
  negative errno as its code — once the stdio streams are torn down,
  so both the `error` and the `close` handler of `spawnQ` run on that
  path, `error` first.
* The WebSocket sink is modelled as always attached and open
  (`ws.readyState === 1`); timestamps on events are elided since no
  claim mentions them.
* The `console.log`/`console.error` diagnostics are elided except for
  the per-image staging diagnostic, which claim C6 is about.
-/

set_option autoImplicit false

namespace QCli

/-- One inline image attachment as received in `options.images`:
a record with a `data` field holding the data-URL payload string. -/
structure QImage where
  data : String
deriving DecidableEq, Repr

/-- The `toolsSettings` option object (destructured in `spawnQ` but
never used when building the spawn request). -/
structure ToolsSettings where
  allowedTools : List String
  disallowedTools : List String
  skipPermissions : Bool
deriving DecidableEq, Repr

/-- The recognized fields of the `options` argument of `spawnQ`
(`const { sessionId, projectPath, cwd, resume, toolsSettings,
permissionMode, images } = options`). -/
structure QOptions where
  sessionId : Option String
  projectPath : Option String
  cwd : Option String
  resume : Option Bool
  toolsSettings : Option ToolsSettings
  permissionMode : Option String
  images : List QImage
deriving DecidableEq, Repr

/-- JS truthiness filter for an optional string: `undefined` and the
empty string are falsy. -/
def jsTruthy (s : Option String) : Option String :=
  match s with
  | some v => if v = "" then none else some v
  | none => none

/-- `a || b` on an optional string versus a default, as in
`const workingDir = cwd || process.cwd()`. -/
def jsOr (o : Option String) (d : String) : String :=
  match o with
  | some s => if s = "" then d else s
  | none => d

/-- A character matched by an (unflagged) JS regex `.`: anything but a
line terminator. -/
def jsDotChar (c : Char) : Bool :=
  c != '\n' && c != '\r' && c != ' ' && c != ' '

/-- A character of the JS whitespace class trimmed by
`String.prototype.trim` (space, tab, line terminators, form/vertical
feed, no-break space, BOM and the Unicode line separators). -/
def jsWhitespaceChar (c : Char) : Bool :=
  c == ' ' || c == '\t' || c == '\n' || c == '\r' ||
    c == '\x0b' || c == '\x0c' || c == ' ' || c == '﻿' ||
    c == ' ' || c == ' '

/-- `s.trim()`.  String operations are modelled on the character list
so that they are executable by plain reduction. -/
def trimString (s : String) : String :=
  ⟨((s.toList.dropWhile jsWhitespaceChar).reverse.dropWhile jsWhitespaceChar).reverse⟩

/-- Literal-prefix test on character lists. -/
def startsWithList : List Char → List Char → Bool
  | _, [] => true
  | [], _ :: _ => false
  | c :: cs, p :: ps => c == p && startsWithList cs ps

/-- `s.split(sep)` on character lists, JS semantics: `a//b` split on
the slash gives three groups with an empty middle one, and the empty
string splits to one empty group. -/
def splitOnChar (sep : Char) : List Char → List (List Char)
  | [] => [[]]
  | c :: cs =>
      if c == sep then [] :: splitOnChar sep cs
      else
        match splitOnChar sep cs with
        | [] => [[c]]
        | g :: gs => (c :: g) :: gs

/-- `image.data.match(/^data:([^;]+);base64,(.+)$/)` from `spawnQ`:
returns the captured mime type and base64 payload when the data-URL
shape matches, `none` otherwise.  `[^;]+` forces the mime group to be
the nonempty run up to the first semicolon, which must be immediately
followed by the literal `base64,`; `(.+)$` requires a nonempty
remainder free of line terminators. -/
def matchImageData (s : String) : Option (String × String) :=
  let l := s.toList
  if ¬ startsWithList l (("data:").toList) then none
  else
    let rest := l.drop 5
    let mime := rest.takeWhile (fun c => c != ';')
    let after := rest.drop mime.length
    if mime.isEmpty then none
    else if ¬ startsWithList after ((";base64,").toList) then none
    else
      let b64 := after.drop 8
      if b64.isEmpty then none
      else if ¬ b64.all jsDotChar then none
      else some (⟨mime⟩, ⟨b64⟩)

/-- `mimeType.split('/')[1] || 'png'` from `spawnQ`: the file extension
inferred from the declared mime type. -/
def extFromMime (mime : String) : String :=
  match (splitOnChar '/' mime.toList).drop 1 with
  | [] => "png"
  | e :: _ => if e.isEmpty then "png" else ⟨e⟩

/-- `path.join(a, b)` for the simple relative components used here. -/
def pathJoin (a b : String) : String :=
  a ++ "/" ++ b

/-- ```image_${index}.${extension}``` from `spawnQ`. -/
def imageFilename (idx : Nat) (mime : String) : String :=
  "image_" ++ toString idx ++ "." ++ extFromMime mime

/-- One iteration of the `for (const [index, image] of images.entries())`
loop in `spawnQ`, given the match result of the image payload: a
malformed payload is skipped with the diagnostic
`Invalid image data format` (second component), a well-formed one
contributes its staged file path (first component, the
`tempImagePaths` accumulator). -/
def stageStep (tempDir : String) (i : Nat) (m : Option (String × String))
    (acc : List String × List String) : List String × List String :=
  match m with
  | none => (acc.1, ("Invalid image data format") :: acc.2)
  | some (mime, _) => (pathJoin tempDir (imageFilename i mime) :: acc.1, acc.2)

/-- The staging loop of `spawnQ` over the index-annotated image list. -/
def stageLoop (tempDir : String) : List (Nat × QImage) → List String × List String
  | [] => ([], [])
  | (i, img) :: rest =>
      stageStep tempDir i (matchImageData img.data) (stageLoop tempDir rest)

/-- The `tempImagePaths` list produced by the staging loop of `spawnQ`. -/
def tempImagePathsOf (tempDir : String) (images : List QImage) : List String :=
  (stageLoop tempDir images.enum).1

/-- The per-image diagnostics logged by the staging loop of `spawnQ`. -/
def stageLogsOf (tempDir : String) (images : List QImage) : List String :=
  (stageLoop tempDir images.enum).2

/-- The argument vector built before image handling in `spawnQ`:
`args.push('chat')`, then `if (command && command.trim()) args.push(command)`. -/
def buildInitialArgs (command : String) : List String :=
  ["chat"] ++ (if command ≠ "" ∧ trimString command ≠ "" then [command] else [])

/-- The `imageNote` template string of `spawnQ`. -/
def imageNote (paths : List String) : String :=
  "\n\n[Images provided at the following paths:]\n" ++
    String.intercalate ("\n")
      ((paths.enum).map (fun p => toString (p.1 + 1) ++ ". " ++ p.2))

/-- `args.indexOf(x)`, as an `Option Nat` (JS returns `-1` for absent). -/
def jsIndexOf : List String → String → Option Nat
  | [], _ => none
  | a :: rest, x => if a = x then some 0 else (jsIndexOf rest x).map (· + 1)

/-- The attempted in-place prompt update of `spawnQ`:
`const messageIndex = args.indexOf('--message');
if (messageIndex !== -1 && args[messageIndex + 1]) {
  args[messageIndex + 1] = modifiedCommand; }`. -/
def updateMessageArg (args : List String) (newCmd : String) : List String :=
  match jsIndexOf args ("--message") with
  | none => args
  | some i =>
      match args[i + 1]? with
      | none => args
      | some nxt => if nxt ≠ "" then args.set (i + 1) newCmd else args

/-- The final argument vector handed to `spawn('q', args, ...)`:
the initial args, the image-note update attempt (performed when some
paths were staged and the prompt is nonempty), then `args.push('--verbose')`. -/
def spawnArgs (command : String) (stagedPaths : List String) : List String :=
  let args := buildInitialArgs command
  let args1 :=
    if stagedPaths.length > 0 ∧ command ≠ "" ∧ trimString command ≠ "" then
      updateMessageArg args (command ++ imageNote stagedPaths)
    else args
  args1 ++ ["--verbose"]

/-- One asynchronous data notification from the child process:
a chunk arriving on stdout (`qProcess.stdout.on('data', ...)`) or on
stderr (`qProcess.stderr.on('data', ...)`). -/
inductive StreamChunk where
  | out (data : String)
  | err (data : String)
deriving DecidableEq, Repr

/-- The terminal notifications of a child process.  `close code` is a
normally launched process exiting (`code` is `none` when the child
died from a signal, as Node reports `null` then).  `launchError
message code` is a process that failed to launch (e.g. ENOENT): Node
emits the `error` event and then, once the stdio streams are torn
down, still emits `close`, carrying the negative errno as its code
(`-2` for ENOENT) — so on this path both handlers of `spawnQ` run,
`error` first. -/
inductive ProcExit where
  | close (code : Option Int)
  | launchError (message : String) (code : Option Int)
deriving DecidableEq, Repr

/-- The observable behaviour of one child process: data chunks in
arrival order followed by exactly one terminal notification. -/
structure ProcRun where
  chunks : List StreamChunk
  exit : ProcExit
deriving DecidableEq, Repr

/-- The events `spawnQ` sends to the WebSocket (timestamps elided).
`sessionCreated` is the `session-created` message; `qOutput` and
`qErrorChunk` are the `q-output` / `q-error` streaming messages;
`qErrorLaunch` is the `q-error` message of the launch-failure handler
(carrying `error.message` instead of a data chunk); `qComplete` is the
`q-complete` message carrying the exit code. -/
inductive QEvent where
  | sessionCreated (sessionId : String)
  | qOutput (sessionId : Option String) (data : String)
  | qErrorChunk (sessionId : Option String) (data : String)
  | qErrorLaunch (sessionId : Option String) (error : String)
  | qComplete (sessionId : Option String) (exitCode : Option Int)
deriving DecidableEq, Repr

/-- `capturedSessionId || q-session-${Date.now()}` used in the
`session-created` message of `spawnQ`. -/
def createdSessionId (sessionId : Option String) (now : Nat) : String :=
  match jsTruthy sessionId with
  | some s => s
  | none => "q-session-" ++ toString now

/-- The event sent for one data chunk by the stdout/stderr handlers of
`spawnQ`. -/
def chunkEvent (sid : Option String) : StreamChunk → QEvent
  | .out d => .qOutput sid d
  | .err d => .qErrorChunk sid d

/-- The events sent by the terminal handlers of `spawnQ`: the `close`
handler sends one `q-complete` with the exit code; on a failed launch
the `error` handler sends one `q-error` with the error message and
then the `close` handler, fired by the trailing Node `close` event,
still sends a `q-complete` carrying that event's code. -/
def terminalEvents (sid : Option String) : ProcExit → List QEvent
  | .close c => [.qComplete sid c]
  | .launchError m c => [.qErrorLaunch sid m, .qComplete sid c]

/-- The full per-session event sequence of one `spawnQ` run.  The
`session-created` send at the bottom of the promise executor runs
synchronously before any process callback can fire (single-threaded
event loop), so it precedes every chunk and terminal event; its
`sessionCreatedSent` guard and single call site make it unique. -/
def spawnQEvents (sessionId : Option String) (now : Nat) (r : ProcRun) : List QEvent :=
  .sessionCreated (createdSessionId sessionId now) ::
    (r.chunks.map (chunkEvent sessionId) ++ terminalEvents sessionId r.exit)

/-- The `outputBuffer` accumulated by the stdout handler of `spawnQ`. -/
def outputBufferOf (chunks : List StreamChunk) : String :=
  chunks.foldl
    (fun acc c => match c with
      | .out d => acc ++ d
      | .err _ => acc) ""

/-- The `errorBuffer` accumulated by the stderr handler of `spawnQ`. -/
def errorBufferOf (chunks : List StreamChunk) : String :=
  chunks.foldl
    (fun acc c => match c with
      | .out _ => acc
      | .err d => acc ++ d) ""

/-- JS template rendering of the exit code (`null` prints as `null`). -/
def renderExitCode : Option Int → String
  | none => "null"
  | some c => toString c

/-- How the promise returned by `spawnQ` settles: `ok` models
`resolve({ success: true, output, sessionId })`; `rejectedExit` models
`reject(new Error(...))` from the `close` handler with its exact
message; `rejectedSpawn` models `reject(error)` from the
launch-failure handler. -/
inductive QOutcome where
  | ok (output : String) (sessionId : Option String)
  | rejectedExit (message : String)
  | rejectedSpawn (message : String)
deriving DecidableEq, Repr

/-- The settlement of the `spawnQ` promise as a function of the
process behaviour (`if (code === 0) resolve(...) else reject(...)` in
the `close` handler, `reject(error)` in the `error` handler).  On a
failed launch the `error` handler rejects first; the `close` handler
then also calls `reject`, but a promise settles only once, so the
launch error wins. -/
def spawnQOutcome (sessionId : Option String) (r : ProcRun) : QOutcome :=
  match r.exit with
  | .close c =>
      if c = some 0 then .ok (outputBufferOf r.chunks) sessionId
      else .rejectedExit
        ("Q CLI exited with code " ++ renderExitCode c ++ ": " ++ errorBufferOf r.chunks)
  | .launchError m _ => .rejectedSpawn m

/-- A live child-process handle as seen by the registry.  `killed`
models Node `ChildProcess.killed`: it is set to `true` when `kill()`
successfully sends a signal to the child, and it never reverts to
`false`; it does not indicate that the child has exited. -/
structure ProcHandle where
  pid : Nat
  killed : Bool
deriving DecidableEq, Repr

/-- The `activeQProcesses` map, keyed by session id. -/
abbrev Registry := List (String × ProcHandle)

/-- `activeQProcesses.get(sessionId)`. -/
def lookupReg : Registry → String → Option ProcHandle
  | [], _ => none
  | e :: t, sid => if e.1 = sid then some e.2 else lookupReg t sid

/-- `activeQProcesses.delete(sessionId)`. -/
def eraseReg : Registry → String → Registry
  | [], _ => []
  | e :: t, sid => if e.1 = sid then eraseReg t sid else e :: eraseReg t sid

/-- `activeQProcesses.set(sessionId, qProcess)` (keys are unique in a
JS `Map`, so setting replaces any previous binding). -/
def insertReg (reg : Registry) (sid : String) (p : ProcHandle) : Registry :=
  (sid, p) :: eraseReg reg sid

/-- The registration step of `spawnQ`:
`if (capturedSessionId) activeQProcesses.set(capturedSessionId, qProcess)`. -/
def registerProcess (sessionId : Option String) (p : ProcHandle) (reg : Registry) : Registry :=
  match jsTruthy sessionId with
  | some s => insertReg reg s p
  | none => reg

/-- The deregistration step shared by the `close` and `error` handlers
of `spawnQ`: `if (capturedSessionId) activeQProcesses.delete(capturedSessionId)`. -/
def deleteSession (sessionId : Option String) (reg : Registry) : Registry :=
  match jsTruthy sessionId with
  | some s => eraseReg reg s
  | none => reg

/-- Everything observable at the end of one `spawnQ` run:
the event sequence, the promise settlement, the registry after the
run, and whether removal of the staging directory was attempted
(`if (tempDir) fs.rmdir(tempDir, { recursive: true })`, identical in
the `close` and `error` handlers). -/
structure RunFinalState where
  events : List QEvent
  outcome : QOutcome
  registry : Registry
  tempDirRemoveAttempted : Bool
deriving Repr

/-- One complete `spawnQ` run: the handle is registered at spawn time,
events are emitted as the process produces chunks and terminates, and
the terminal handlers deregister the session and attempt staging
cleanup exactly when a staging directory was created.  On a failed
launch both the `error` and the `close` handler perform this cleanup;
the second deletion is a no-op and the second removal attempt hits an
already-removed directory (its failure is only logged), so the final
state is the same. -/
def spawnQFinal (sessionId : Option String) (now : Nat) (tempDirCreated : Bool)
    (reg : Registry) (p : ProcHandle) (r : ProcRun) : RunFinalState :=
  { events := spawnQEvents sessionId now r
    outcome := spawnQOutcome sessionId r
    registry := deleteSession sessionId (registerProcess sessionId p reg)
    tempDirRemoveAttempted := tempDirCreated }

/-- Recognizer for `session-created` events. -/
def isSessionCreatedEvent : QEvent → Bool
  | .sessionCreated _ => true
  | _ => false

/-- Recognizer for `q-complete` events. -/
def isCompleteEvent : QEvent → Bool
  | .qComplete _ _ => true
  | _ => false

/-- The `sessionId` field carried by an event. -/
def eventSessionId : QEvent → Option String
  | .sessionCreated s => some s
  | .qOutput sid _ => sid
  | .qErrorChunk sid _ => sid
  | .qErrorLaunch sid _ => sid
  | .qComplete sid _ => sid

/-- What a call to `abortQSession` does: its return value, the
registry afterwards, the signals sent synchronously, and whether the
5-second timeout callback will issue the `SIGKILL` when it fires. -/
structure AbortOutcome where
  returned : Bool
  registry : Registry
  signalsSent : List String
  forceKillAt5s : Bool
deriving DecidableEq, Repr

/-- `abortQSession(sessionId)` from `src/server/q-cli.js`.

The registered handle is looked up; if it exists and is not already
`killed`, the function sends `SIGTERM` (which, per Node semantics,
sets the handle's `killed` flag), schedules a timeout that will send
`SIGKILL` after 5 seconds `if (!qProcess.killed)`, deletes the session
from the registry immediately, and returns `true`; otherwise it
returns `false` and changes nothing.

`forceKillAt5s` is computed from the handle state after the `SIGTERM`
call; since `killed` is monotone (set by every successful `kill()`,
never cleared, and unaffected by the process exiting), its value when
the timeout fires equals its value here. -/
def abortQSession (reg : Registry) (sessionId : String) : AbortOutcome :=
  match lookupReg reg sessionId with
  | some q =>
      if q.killed = false then
        let q1 : ProcHandle := { q with killed := true }
        { returned := true
          registry := eraseReg reg sessionId
          signalsSent := ["SIGTERM"]
          forceKillAt5s := !q1.killed }
      else
        { returned := false, registry := reg, signalsSent := [], forceKillAt5s := false }
  | none => { returned := false, registry := reg, signalsSent := [], forceKillAt5s := false }

/-- A directory path as a list of components (filesystem model for
the staging-directory creation). -/
abbrev DirPath := List String

/-- The set of existing directories, as a list of paths. -/
abbrev FileSystem := List DirPath

/-- All ancestor prefixes of a directory path, the directory itself
and the root included. -/
def dirAncestors (d : DirPath) : List DirPath :=
  (List.range (d.length + 1)).map (fun n => d.take n)

/-- `fs.mkdir(dir, { recursive: true })`: every missing ancestor of
`dir` is created, so afterwards every prefix of `dir` exists. -/
def mkdirRecursive (fs : FileSystem) (d : DirPath) : FileSystem :=
  fs ++ dirAncestors d

/-- `path.join(workingDir, '.tmp', 'images', Date.now().toString())`
at the path-component level. -/
def tempDirOf (workingDir : DirPath) (stamp : String) : DirPath :=
  workingDir ++ [".tmp", "images", stamp]

/-- The filesystem after the image-staging step of `spawnQ`: when
images are present the staging directory is created recursively under
the working directory; otherwise nothing is touched.  `spawnQ` never
checks whether the working directory exists. -/
def fsAfterStaging (fs : FileSystem) (workingDir : DirPath) (hasImages : Bool)
    (stamp : String) : FileSystem :=
  if hasImages then mkdirRecursive fs (tempDirOf workingDir stamp) else fs

/-- The claim that the supervisor never silently creates the working
directory: starting from any filesystem in which it does not exist, it
still does not exist after the staging step. -/
def neverCreatesWorkingDir : Prop :=
  ∀ (fs : FileSystem) (wd : DirPath) (hasImages : Bool) (stamp : String),
    wd ∉ fs → wd ∉ fsAfterStaging fs wd hasImages stamp

/-- The environment overrides applied to the child process:
`{ ...process.env, FORCE_COLOR: '0', NO_COLOR: '1' }` (later entries
win, so appending them models the spread override). -/
def colorOverrides : List (String × String) :=
  [("FORCE_COLOR", "0"), ("NO_COLOR", "1")]

/-- The complete spawn request handed to
`spawn('q', args, { cwd, stdio, env })`. -/
structure SpawnInvocation where
  cmd : String
  args : List String
  cwd : String
  env : List (String × String)
deriving DecidableEq, Repr

/-- The spawn request `spawnQ` constructs from its inputs: the working
directory is `cwd || process.cwd()`, used verbatim; when images are
present they are staged under `workingDir/.tmp/images/<stamp>` and the
resulting paths feed the (ineffective) prompt-update attempt; the
argument vector ends with `--verbose`; the environment is the parent
environment with the color-disabling overrides. -/
def spawnInvocation (command : String) (opts : QOptions) (processCwd : String)
    (processEnv : List (String × String)) (stamp : String) : SpawnInvocation :=
  let workingDir := jsOr opts.cwd processCwd
  let tempDir := pathJoin (pathJoin (pathJoin workingDir (".tmp")) ("images")) stamp
  let staged :=
    if opts.images.length > 0 then tempImagePathsOf tempDir opts.images else []
  { cmd := "q"
    args := spawnArgs command staged
    cwd := workingDir
    env := processEnv ++ colorOverrides }

/-- A run request with one well-formed and one malformed inline image. -/
def mixedImagesOptions : QOptions :=
  { sessionId := some "s1", projectPath := none, cwd := some "/w",
    resume := none, toolsSettings := none, permissionMode := none,
    images := [⟨"data:image/png;base64,AAAA"⟩, ⟨"not-an-inline-image"⟩] }

/-- A run request exercising the resume / tools / permission options. -/
def optsA : QOptions :=
  { sessionId := some "s1", projectPath := none, cwd := some "/w",
    resume := some false, toolsSettings := some ⟨["tool1"], [], false⟩,
    permissionMode := some "default", images := [] }

/-- `optsA` with the resume flag, tools settings and permission mode
all changed. -/
def optsB : QOptions :=
  { optsA with
    resume := some true
    toolsSettings := none
    permissionMode := some "plan" }

/-! ### Helper lemmas -/

/-- The prompt-update attempt never changes the argument vector:
`--message` was never pushed onto `args` (the prompt is positional),
and even a prompt literally equal to `--message` sits in last
position, so the `args[messageIndex + 1]` guard fails. -/
theorem updateMessageArg_initialArgs (c x : String) :
    updateMessageArg (buildInitialArgs c) x = buildInitialArgs c := by
  unfold buildInitialArgs updateMessageArg
  by_cases hc : c ≠ "" ∧ trimString c ≠ ""
  · simp only [if_pos hc]
    by_cases hm : c = "--message"
    · subst hm
      simp [jsIndexOf]
    · simp [jsIndexOf, hm]
  · simp only [if_neg hc]
    simp [jsIndexOf]

/-- A deleted key is absent from the registry. -/
theorem lookupReg_eraseReg (reg : Registry) (sid : String) :
    lookupReg (eraseReg reg sid) sid = none := by
  induction reg with
  | nil => rfl
  | cons e t ih =>
      by_cases h : e.1 = sid
      · simpa [eraseReg, h] using ih
      · simpa [eraseReg, lookupReg, h] using ih

/-- A chunk event is never a `session-created` event. -/
theorem isSessionCreatedEvent_chunkEvent (sid : Option String) (c : StreamChunk) :
    isSessionCreatedEvent (chunkEvent sid c) = false := by
  cases c <;> rfl

/-- A chunk event is never a `q-complete` event. -/
theorem isCompleteEvent_chunkEvent (sid : Option String) (c : StreamChunk) :
    isCompleteEvent (chunkEvent sid c) = false := by
  cases c <;> rfl

/-- Chunk events are never `session-created` events. -/
theorem countP_chunkEvents_created (sid : Option String) (l : List StreamChunk) :
    (l.map (chunkEvent sid)).countP isSessionCreatedEvent = 0 := by
  induction l with
  | nil => rfl
  | cons c t ih => cases c <;> simp [chunkEvent, isSessionCreatedEvent, ih]

/-- Chunk events are never `q-complete` events. -/
theorem countP_chunkEvents_complete (sid : Option String) (l : List StreamChunk) :
    (l.map (chunkEvent sid)).countP isCompleteEvent = 0 := by
  induction l with
  | nil => rfl
  | cons c t ih => cases c <;> simp [chunkEvent, isCompleteEvent, ih]

/-- Staged-path count of the staging loop: one path per well-formed
payload. -/
theorem stageLoop_paths_length (tempDir : String) (l : List (Nat × QImage)) :
    (stageLoop tempDir l).1.length =
      (l.filter (fun p => (matchImageData p.2.data).isSome)).length := by
  induction l with
  | nil => rfl
  | cons p t ih =>
      obtain ⟨i, img⟩ := p
      simp only [stageLoop]
      cases hm : matchImageData img.data with
      | none => simp [stageStep, List.filter_cons, hm, ih]
      | some v =>
          obtain ⟨mime, b⟩ := v
          simp [stageStep, List.filter_cons, hm, ih]

/-- Diagnostic count of the staging loop: one log line per malformed
payload. -/
theorem stageLoop_logs_length (tempDir : String) (l : List (Nat × QImage)) :
    (stageLoop tempDir l).2.length =
      (l.filter (fun p => (matchImageData p.2.data).isNone)).length := by
  induction l with
  | nil => rfl
  | cons p t ih =>
      obtain ⟨i, img⟩ := p
      simp only [stageLoop]
      cases hm : matchImageData img.data with
      | none => simp [stageStep, List.filter_cons, hm, ih]
      | some v =>
          obtain ⟨mime, b⟩ := v
          simp [stageStep, List.filter_cons, hm, ih]

/-- Filtering an enumerated list on the payload alone preserves the
filtered length. -/
theorem filter_enumFrom_length (q : QImage → Bool) (l : List QImage) :
    ∀ n, ((List.enumFrom n l).filter (fun p => q p.2)).length = (l.filter q).length := by
  induction l with
  | nil => intro n; rfl
  | cons a t ih =>
      intro n
      by_cases hq : q a <;> simp [List.enumFrom, List.filter_cons, hq, ih]

/-! ### Claim theorems -/

/-- C1: contrary to the claim, the prompt text passed to the child
process is never augmented with the staged-image note: for every
prompt and every staged-path list, the spawned argument vector is
exactly the initial argument vector plus the trailing `--verbose`
flag.  `spawnQ` computes `modifiedCommand = command + imageNote` but
tries to store it at `args.indexOf('--message') + 1`, and no
`--message` token is ever in `args` (the prompt is positional), so the
augmentation announced by the code's own comments never happens. -/
theorem spawnArgs_never_carries_image_note (command : String) (stagedPaths : List String) :
    spawnArgs command stagedPaths = buildInitialArgs command ++ ["--verbose"] := by
  unfold spawnArgs
  by_cases h : stagedPaths.length > 0 ∧ command ≠ "" ∧ trimString command ≠ ""
  · simp [h, updateMessageArg_initialArgs]
  · simp [h]

/-- C2: aborting a live, not-yet-signalled session returns `true`,
removes the session from the registry immediately, and sends
`SIGTERM`; but the 5-second escalation never fires, because the
`SIGTERM` call itself set the handle's `killed` flag, which is what
the timeout callback tests — so no `SIGKILL` is ever issued, even if
the process is still running after the grace period. -/
theorem abortQSession_live_behavior (reg : Registry) (sid : String) (q : ProcHandle)
    (hlook : lookupReg reg sid = some q) (hk : q.killed = false) :
    (abortQSession reg sid).returned = true ∧
    lookupReg (abortQSession reg sid).registry sid = none ∧
    (abortQSession reg sid).signalsSent = ["SIGTERM"] ∧
    (abortQSession reg sid).forceKillAt5s = false := by
  simp [abortQSession, hlook, hk, lookupReg_eraseReg]

/-- Witness for C2 on a concrete one-entry registry. -/
theorem abortQSession_live_behavior_witness :
    (abortQSession [("s1", ⟨42, false⟩)] "s1").returned = true ∧
    lookupReg (abortQSession [("s1", ⟨42, false⟩)] "s1").registry "s1" = none ∧
    (abortQSession [("s1", ⟨42, false⟩)] "s1").signalsSent = ["SIGTERM"] ∧
    (abortQSession [("s1", ⟨42, false⟩)] "s1").forceKillAt5s = false :=
  abortQSession_live_behavior [("s1", ⟨42, false⟩)] "s1" ⟨42, false⟩ (by decide) (by decide)

/-- C8: aborting a session identifier with no registered handle
returns `false` and leaves everything unchanged: the registry is
returned as-is, no signal is sent, and no forced kill is scheduled. -/
theorem abortQSession_missing_noop (reg : Registry) (sid : String)
    (h : lookupReg reg sid = none) :
    abortQSession reg sid =
      { returned := false, registry := reg, signalsSent := [], forceKillAt5s := false } := by
  simp [abortQSession, h]

/-- Witness for C8 on the empty registry. -/
theorem abortQSession_missing_noop_witness :
    abortQSession [] "s1" =
      { returned := false, registry := [], signalsSent := [], forceKillAt5s := false } :=
  abortQSession_missing_noop [] "s1" (by decide)

/-- The last element of a cons followed by an appended singleton. -/
theorem getLast?_cons_append_single {α : Type} (a x : α) (l : List α) :
    (a :: (l ++ [x])).getLast? = some x := by
  rw [← List.cons_append, List.getLast?_append_cons]
  rfl

/-- The last element of a cons followed by an appended pair. -/
theorem getLast?_cons_append_pair {α : Type} (a x y : α) (l : List α) :
    (a :: (l ++ [x, y])).getLast? = some y := by
  rw [← List.cons_append, List.getLast?_append_cons]
  rfl

/-- C3: the per-session event sequence of a run starts with exactly
one `session-created` event (none occurs later), and when the process
exits, the sequence ends with exactly one `q-complete` event carrying
the exit code.  But the claim's final clause is false of the program:
when the process never launches, Node still fires `close` (with the
negative errno) after `error`, so the `close` handler runs and the
sequence still ends with exactly one `q-complete` event — not with
none, as the claim and the spec demand. -/
theorem spawnQ_event_ordering (sid : Option String) (now : Nat) (r : ProcRun) :
    (spawnQEvents sid now r).head? =
        some (QEvent.sessionCreated (createdSessionId sid now)) ∧
    (spawnQEvents sid now r).countP isSessionCreatedEvent = 1 ∧
    (spawnQEvents sid now r).tail.countP isSessionCreatedEvent = 0 ∧
    (∀ c, r.exit = ProcExit.close c →
        (spawnQEvents sid now r).getLast? = some (QEvent.qComplete sid c) ∧
        (spawnQEvents sid now r).countP isCompleteEvent = 1) ∧
    (∀ m c, r.exit = ProcExit.launchError m c →
        (spawnQEvents sid now r).getLast? = some (QEvent.qComplete sid c) ∧
        (spawnQEvents sid now r).countP isCompleteEvent = 1) := by
  obtain ⟨chunks, ex⟩ := r
  refine ⟨rfl, ?_, ?_, ?_, ?_⟩
  · cases ex <;>
      (simp only [spawnQEvents, terminalEvents, List.countP_cons, List.countP_append,
        countP_chunkEvents_created]; rfl)
  · cases ex <;>
      (simp only [spawnQEvents, terminalEvents, List.tail_cons, List.countP_append,
        countP_chunkEvents_created]; rfl)
  · intro c hc
    cases ex with
    | close c0 =>
        have hcc : ProcExit.close c0 = ProcExit.close c := hc
        injection hcc with hcc
        subst hcc
        constructor
        · simp only [spawnQEvents, terminalEvents]
          exact getLast?_cons_append_single _ _ _
        · simp only [spawnQEvents, terminalEvents, List.countP_cons, List.countP_append,
            countP_chunkEvents_complete]
          rfl
    | launchError m0 c0 => exact absurd hc (by simp)
  · intro m c hm
    cases ex with
    | close c0 => exact absurd hm (by simp)
    | launchError m0 c0 =>
        have hmm : ProcExit.launchError m0 c0 = ProcExit.launchError m c := hm
        injection hmm with hmm hcc
        subst hmm
        subst hcc
        constructor
        · simp only [spawnQEvents, terminalEvents]
          exact getLast?_cons_append_pair _ _ _ _
        · simp only [spawnQEvents, terminalEvents, List.countP_cons, List.countP_append,
            countP_chunkEvents_complete]
          rfl

/-- Witness for C3 on a one-chunk successful run and on a failed
launch (ENOENT, trailing close code `-2`). -/
theorem spawnQ_event_ordering_witness :
    (spawnQEvents (some "s1") 7
        ⟨[StreamChunk.out "hello"], ProcExit.close (some 0)⟩).getLast?
      = some (QEvent.qComplete (some "s1") (some 0)) ∧
    (spawnQEvents (some "s1") 7
        ⟨[], ProcExit.launchError "spawn q ENOENT" (some (-2))⟩).countP isCompleteEvent = 1 :=
  ⟨((spawnQ_event_ordering (some "s1") 7
      ⟨[StreamChunk.out "hello"], ProcExit.close (some 0)⟩).2.2.2.1 (some 0) rfl).1,
    ((spawnQ_event_ordering (some "s1") 7
      ⟨[], ProcExit.launchError "spawn q ENOENT" (some (-2))⟩).2.2.2.2
        "spawn q ENOENT" (some (-2)) rfl).2⟩

/-- C4: on launch failure the run attempts staging-directory removal
exactly when a staging directory was created, leaves no registry entry
for the session, emits a `q-error` event carrying the launch error,
and settles as rejected with that error — all as claimed.  But the
claim's final clause is false of the program: the trailing Node
`close` event fires the `close` handler, which sends exactly one
`q-complete` event (carrying the negative errno) after the `q-error`,
instead of the claimed none. -/
theorem spawnQ_launch_failure_cleanup (sid : Option String) (now : Nat)
    (tempDirCreated : Bool) (reg : Registry) (p : ProcHandle) (r : ProcRun)
    (m : String) (c : Option Int)
    (h : r.exit = ProcExit.launchError m c) :
    (spawnQFinal sid now tempDirCreated reg p r).tempDirRemoveAttempted = tempDirCreated ∧
    (∀ s, jsTruthy sid = some s →
        lookupReg (spawnQFinal sid now tempDirCreated reg p r).registry s = none) ∧
    QEvent.qErrorLaunch sid m ∈ (spawnQFinal sid now tempDirCreated reg p r).events ∧
    (spawnQFinal sid now tempDirCreated reg p r).outcome = QOutcome.rejectedSpawn m ∧
    (spawnQFinal sid now tempDirCreated reg p r).events.getLast?
        = some (QEvent.qComplete sid c) ∧
    (spawnQFinal sid now tempDirCreated reg p r).events.countP isCompleteEvent = 1 := by
  obtain ⟨chunks, ex⟩ := r
  have hex : ex = ProcExit.launchError m c := h
  subst hex
  refine ⟨rfl, ?_, ?_, rfl, ?_, ?_⟩
  · intro s hs
    simp [spawnQFinal, deleteSession, hs, lookupReg_eraseReg]
  · simp [spawnQFinal, spawnQEvents, terminalEvents]
  · simp only [spawnQFinal, spawnQEvents, terminalEvents]
    exact getLast?_cons_append_pair _ _ _ _
  · simp only [spawnQFinal, spawnQEvents, terminalEvents, List.countP_cons,
      List.countP_append, countP_chunkEvents_complete]
    rfl

/-- Witness for C4 on a concrete failed launch. -/
theorem spawnQ_launch_failure_cleanup_witness :
    lookupReg (spawnQFinal (some "s1") 7 true [] ⟨42, false⟩
        ⟨[], ProcExit.launchError "spawn q ENOENT" (some (-2))⟩).registry "s1" = none ∧
    (spawnQFinal (some "s1") 7 true [] ⟨42, false⟩
        ⟨[], ProcExit.launchError "spawn q ENOENT" (some (-2))⟩).events.countP
      isCompleteEvent = 1 :=
  ⟨(spawnQ_launch_failure_cleanup (some "s1") 7 true [] ⟨42, false⟩
      ⟨[], ProcExit.launchError "spawn q ENOENT" (some (-2))⟩ "spawn q ENOENT"
      (some (-2)) rfl).2.1 "s1" (by decide),
    (spawnQ_launch_failure_cleanup (some "s1") 7 true [] ⟨42, false⟩
      ⟨[], ProcExit.launchError "spawn q ENOENT" (some (-2))⟩ "spawn q ENOENT"
      (some (-2)) rfl).2.2.2.2.2⟩

/-- C5: a run whose process exits settles as success exactly when the
exit code is zero, in which case the result carries the accumulated
output text and the session identifier; for any other exit code it
settles as rejected with the error message carrying the exit code and
the accumulated error text. -/
theorem spawnQ_exit_resolution (sid : Option String) (r : ProcRun) (c : Option Int)
    (h : r.exit = ProcExit.close c) :
    (spawnQOutcome sid r = QOutcome.ok (outputBufferOf r.chunks) sid ↔ c = some 0) ∧
    (c ≠ some 0 → spawnQOutcome sid r =
        QOutcome.rejectedExit
          ("Q CLI exited with code " ++ renderExitCode c ++ ": " ++ errorBufferOf r.chunks)) := by
  obtain ⟨chunks, ex⟩ := r
  have hex : ex = ProcExit.close c := h
  subst hex
  by_cases hc : c = some 0
  · subst hc
    exact ⟨by simp [spawnQOutcome], fun hne => absurd rfl hne⟩
  · exact ⟨by simp [spawnQOutcome, hc], fun _ => by simp [spawnQOutcome, hc]⟩

/-- Witness for C5 on a run exiting with code 2. -/
theorem spawnQ_exit_resolution_witness :
    spawnQOutcome (some "s1") ⟨[StreamChunk.err "boom"], ProcExit.close (some 2)⟩ =
      QOutcome.rejectedExit ("Q CLI exited with code " ++ renderExitCode (some 2) ++ ": "
        ++ errorBufferOf [StreamChunk.err "boom"]) :=
  (spawnQ_exit_resolution (some "s1") ⟨[StreamChunk.err "boom"], ProcExit.close (some 2)⟩
    (some 2) rfl).2 (by decide)

/-- C9: a run started without a session identifier never registers its
handle (so abort can never find it), its `session-created` event
carries the freshly generated `q-session-<timestamp>` identifier, and
every later event of the run carries no session identifier. -/
theorem spawnQ_without_sessionId (now : Nat) (p : ProcHandle) (reg : Registry) (r : ProcRun) :
    registerProcess none p reg = reg ∧
    (spawnQEvents none now r).head? =
        some (QEvent.sessionCreated ("q-session-" ++ toString now)) ∧
    ∀ e ∈ (spawnQEvents none now r).tail, eventSessionId e = none := by
  obtain ⟨chunks, ex⟩ := r
  refine ⟨rfl, rfl, ?_⟩
  intro e he
  simp only [spawnQEvents, List.tail_cons] at he
  rw [List.mem_append] at he
  rcases he with he | he
  · obtain ⟨ch, _, rfl⟩ := List.mem_map.mp he
    cases ch <;> rfl
  · cases ex with
    | close c =>
        simp [terminalEvents] at he
        subst he
        rfl
    | launchError m c =>
        simp [terminalEvents] at he
        rcases he with he | he <;> (subst he; rfl)

/-- Witness for C9 on a concrete chunkless successful run. -/
theorem spawnQ_without_sessionId_witness :
    registerProcess none ⟨1, false⟩ [] = [] ∧
    eventSessionId (QEvent.qComplete none (some 0)) = none :=
  ⟨(spawnQ_without_sessionId 7 ⟨1, false⟩ [] ⟨[], ProcExit.close (some 0)⟩).1,
    (spawnQ_without_sessionId 7 ⟨1, false⟩ [] ⟨[], ProcExit.close (some 0)⟩).2.2
      (QEvent.qComplete none (some 0)) (by simp [spawnQEvents, terminalEvents])⟩

/-- C6: malformed inline images are skipped individually with a
logged diagnostic and never abort the run: the number of staged paths
equals the number of well-formed payloads and the number of logged
diagnostics equals the number of malformed ones, in any attachment
list; on the concrete mixed list (one valid, one malformed) exactly
one file is staged, exactly the one diagnostic is logged, and the
spawn request is still constructed normally. -/
theorem stageImages_skip_malformed :
    (∀ (tempDir : String) (imgs : List QImage),
        (tempImagePathsOf tempDir imgs).length =
          (imgs.filter (fun img => (matchImageData img.data).isSome)).length) ∧
    (∀ (tempDir : String) (imgs : List QImage),
        (stageLogsOf tempDir imgs).length =
          (imgs.filter (fun img => (matchImageData img.data).isNone)).length) ∧
    tempImagePathsOf ("/w/.tmp/images/0") mixedImagesOptions.images
      = ["/w/.tmp/images/0/image_0.png"] ∧
    stageLogsOf ("/w/.tmp/images/0") mixedImagesOptions.images
      = ["Invalid image data format"] ∧
    spawnInvocation ("describe the image") mixedImagesOptions ("/home") [] ("0")
      = { cmd := "q", args := ["chat", "describe the image", "--verbose"],
          cwd := "/w", env := colorOverrides } := by
  refine ⟨?_, ?_, by decide, by decide, by decide⟩
  · intro tempDir imgs
    unfold tempImagePathsOf
    rw [stageLoop_paths_length]
    simpa [List.enum] using
      filter_enumFrom_length (fun img => (matchImageData img.data).isSome) imgs 0
  · intro tempDir imgs
    unfold stageLogsOf
    rw [stageLoop_logs_length]
    simpa [List.enum] using
      filter_enumFrom_length (fun img => (matchImageData img.data).isNone) imgs 0

/-- C7 counterexample: the supervisor does silently create the working
directory.  With a filesystem holding only the root, a working
directory `proj` that does not exist, and a run carrying images, the
recursive creation of the staging directory
`proj/.tmp/images/<stamp>` creates `proj` itself. -/
theorem workingDir_silently_created_cex : ¬ neverCreatesWorkingDir := by
  intro h
  exact h [[]] [("proj")] true ("17") (by decide) (by decide)

/-- C7 (amended): the working directory defaults to the current
directory when not supplied and is otherwise used verbatim as the
child process's working directory; no existence validation is
performed, and when images are staged, the recursive staging-directory
creation makes the working directory exist (creating it if absent). -/
theorem workingDir_default_verbatim_created (command : String) (opts : QOptions)
    (processCwd : String) (processEnv : List (String × String)) (stamp : String)
    (c : String) (hc : c ≠ "") (fs : FileSystem) (wd : DirPath) (stamp2 : String) :
    jsOr none processCwd = processCwd ∧
    jsOr (some c) processCwd = c ∧
    (spawnInvocation command opts processCwd processEnv stamp).cwd
        = jsOr opts.cwd processCwd ∧
    wd ∈ fsAfterStaging fs wd true stamp2 := by
  refine ⟨rfl, by simp [jsOr, hc], rfl, ?_⟩
  have hmem : wd ∈ dirAncestors (tempDirOf wd stamp2) := by
    unfold dirAncestors tempDirOf
    refine List.mem_map.mpr ⟨wd.length, List.mem_range.mpr ?_, ?_⟩
    · simp only [List.length_append, List.length_cons, List.length_nil]
      omega
    · exact List.take_left wd _
  exact List.mem_append.mpr (Or.inr hmem)

/-- Witness for C7 (amended) on concrete inputs. -/
theorem workingDir_default_verbatim_created_witness :
    jsOr (some "/w") "/home" = "/w" ∧
    (["proj"] : DirPath) ∈ fsAfterStaging [[]] ["proj"] true "17" :=
  ⟨(workingDir_default_verbatim_created "ls"
      { sessionId := none, projectPath := none, cwd := some "/w", resume := none,
        toolsSettings := none, permissionMode := none, images := [] }
      "/home" [] "5" "/w" (by decide) [[]] ["proj"] "17").2.1,
    (workingDir_default_verbatim_created "ls"
      { sessionId := none, projectPath := none, cwd := some "/w", resume := none,
        toolsSettings := none, permissionMode := none, images := [] }
      "/home" [] "5" "/w" (by decide) [[]] ["proj"] "17").2.2.2⟩

/-- C10: two run requests that agree on the session identifier,
project path, working directory and images — and may differ
arbitrarily in the resume flag, the tools settings and the permission
mode — produce identical spawn requests (command, argument vector,
working directory and environment). -/
theorem spawn_request_ignores_tool_options (command : String) (o1 o2 : QOptions)
    (processCwd : String) (processEnv : List (String × String)) (stamp : String)
    (_hsid : o1.sessionId = o2.sessionId) (_hpp : o1.projectPath = o2.projectPath)
    (hcwd : o1.cwd = o2.cwd) (himg : o1.images = o2.images) :
    spawnInvocation command o1 processCwd processEnv stamp
      = spawnInvocation command o2 processCwd processEnv stamp := by
  simp only [spawnInvocation, hcwd, himg]

/-- Witness for C10: two concrete requests differing in all three
options spawn the same request. -/
theorem spawn_request_ignores_tool_options_witness :
    optsA.resume ≠ optsB.resume ∧
    optsA.toolsSettings ≠ optsB.toolsSettings ∧
    optsA.permissionMode ≠ optsB.permissionMode ∧
    spawnInvocation "ls" optsA "/home" [] "5" = spawnInvocation "ls" optsB "/home" [] "5" :=
  ⟨by decide, by decide, by decide,
    spawn_request_ignores_tool_options "ls" optsA optsB "/home" [] "5" rfl rfl rfl rfl⟩

end QCli
